import Mathlib

/-!
Shallow embedding of the homework status bot (`homework.py`, `exceptions.py`):
a poll loop that fetches homework statuses from an HTTP API, validates the
decoded payload, translates the first work item into a notification string and
sends it through a messaging client, containing all failures per cycle.

Python values decoded from JSON are modelled by `PyVal`; Python exceptions that
the program raises or hits are modelled by `PyErr`; fallible code returns
`Except PyErr _`.  External effects (the HTTP request, the messaging client)
are passed in as explicit outcome values, so each function is a pure function
of its inputs and the behaviour of its collaborators.
-/

/-- Python values as decoded from JSON (plus `None` and `bool`), the data the
program manipulates.  Dicts are association lists with string keys, as produced
by JSON object decoding. -/
inductive PyVal where
  | none : PyVal
  | bool : Bool → PyVal
  | int : Int → PyVal
  | str : String → PyVal
  | list : List PyVal → PyVal
  | dict : List (String × PyVal) → PyVal

/-- Python truthiness (`bool(v)`), used by `if not response:` and
`if homeworks:`. -/
def PyVal.truthy : PyVal → Bool
  | PyVal.none => false
  | PyVal.bool b => b
  | PyVal.int n => n != 0
  | PyVal.str s => s != ""
  | PyVal.list l => !l.isEmpty
  | PyVal.dict d => !d.isEmpty

/-- Python `v is None`. -/
def PyVal.isNone : PyVal → Bool
  | PyVal.none => true
  | _ => false

/-- Python `isinstance(v, dict)`. -/
def PyVal.isDict : PyVal → Bool
  | PyVal.dict _ => true
  | _ => false

/-- Python `isinstance(v, int)` (for stating type facts about `current_date`). -/
def PyVal.isInt : PyVal → Bool
  | PyVal.int _ => true
  | _ => false

/-- Python `type(v).__name__`, used only to build error messages. -/
def pyTypeName : PyVal → String
  | PyVal.none => "NoneType"
  | PyVal.bool _ => "bool"
  | PyVal.int _ => "int"
  | PyVal.str _ => "str"
  | PyVal.list _ => "list"
  | PyVal.dict _ => "dict"

/-- Python `str(v)` as used by the f-string in `parse_status`.  Scalar cases
are exact; container renderings are abbreviated (no theorem depends on them:
`homework_name` values in the claims are scalars). -/
def pyStr : PyVal → String
  | PyVal.none => "None"
  | PyVal.bool true => "True"
  | PyVal.bool false => "False"
  | PyVal.int n => toString n
  | PyVal.str s => s
  | PyVal.list _ => "<list>"
  | PyVal.dict _ => "<dict>"

/-- Python exceptions the program raises or runs into, with the message they
carry.  `StatusCodeError`, `JSONError` and `EmptyDictInResponseError` come from
`exceptions.py`; `TypeError`, `KeyError`, `AttributeError` and
`UnboundLocalError` are builtins. -/
inductive PyErr where
  | emptyDictInResponse (msg : String)
  | typeError (msg : String)
  | keyError (msg : String)
  | statusCodeError (msg : String)
  | jsonError (msg : String)
  | attributeError (msg : String)
  | unboundLocalError
deriving DecidableEq

/-- Python `str(error)` for the modelled exceptions, used in the failure
notification `f'Сбой в работе программы: {error}'`.  `str` of a `KeyError`
wraps its message in quotes (CPython behaviour). -/
def pyErrStr : PyErr → String
  | PyErr.emptyDictInResponse m => m
  | PyErr.typeError m => m
  | PyErr.keyError m => "\x27" ++ m ++ "\x27"
  | PyErr.statusCodeError m => m
  | PyErr.jsonError m => m
  | PyErr.attributeError m => m
  | PyErr.unboundLocalError =>
      "local variable \x27homeworks\x27 referenced before assignment"

/-- Python `d.get(k)` on a dict association list: the value, or `None` when the
key is absent. -/
def dictGetD (d : List (String × PyVal)) (k : String) : PyVal :=
  match d.lookup k with
  | Option.some v => v
  | Option.none => PyVal.none

/-- Python `v.get(k)` as a method call on an arbitrary value: on a dict it is
`dictGetD`; on anything else the attribute lookup raises `AttributeError`
(this matters at `main`'s `response.get('current_date')`, where `response` is
whatever the body decoded to). -/
def pyGet (v : PyVal) (k : String) : Except PyErr PyVal :=
  match v with
  | PyVal.dict d => Except.ok (dictGetD d k)
  | _ => Except.error (PyErr.attributeError
      ("\x27" ++ pyTypeName v ++ "\x27 object has no attribute \x27get\x27"))

/-- Verdict map `HOMEWORK_VERDICTS` from `homework.py`. -/
def HOMEWORK_VERDICTS : List (String × String) :=
  [("approved", "Работа проверена: ревьюеру всё понравилось. Ура!"),
   ("reviewing", "Работа взята на проверку ревьюером."),
   ("rejected", "Работа проверена: у ревьюера есть замечания.")]

/-- Python `HOMEWORK_VERDICTS.get(status)` where `status` is an arbitrary
value: string keys are looked up; other hashable scalars are simply absent
(the map's keys are all strings); unhashable values (list/dict) raise
`TypeError`, as `dict.get` does in Python. -/
def verdictsGet : PyVal → Except PyErr (Option String)
  | PyVal.str s => Except.ok (HOMEWORK_VERDICTS.lookup s)
  | PyVal.list _ => Except.error (PyErr.typeError "unhashable type: \x27list\x27")
  | PyVal.dict _ => Except.error (PyErr.typeError "unhashable type: \x27dict\x27")
  | _ => Except.ok Option.none

/-- Message of `EmptyDictInResponseError` in `check_response`. -/
def emptyDictMsg : String := "Ответ от API содержит пустой словарь"

/-- Message of the not-a-dict `TypeError` in `check_response`. -/
def notDictMsg : String := "Ответ от API не является словарем"

/-- Message of the missing-`current_date` `KeyError` in `check_response`. -/
def missingCurrentDateMsg : String :=
  "Ответ от API не содержит ключ \"current_date\""

/-- Message of the missing-`homeworks` `KeyError` in `check_response`. -/
def missingHomeworksMsg : String :=
  "Ответ от API не содержит ключ \"homeworks\""

/-- Message of the `homeworks`-not-a-list `TypeError` in `check_response`. -/
def homeworksNotListMsg : String :=
  "Данные в ответе API по ключу \"homeworks\" не являются словарем"

/-- Message of the missing-`homework_name` `KeyError` in `parse_status`. -/
def missingNameMsg : String :=
  "Словарь с домашней работой не содержит ключ \"homework_name\""

/-- Message of the missing-`status` `KeyError` in `parse_status`. -/
def missingStatusMsg : String :=
  "Словарь с домашней работой не содержит ключ \"status\""

/-- Message of the unknown-status `KeyError` in `parse_status`. -/
def unknownStatusMsg : String := "Недокументированный статус домашней работы"

/-- Message of `StatusCodeError` in `get_api_answer`: the two f-string pieces
concatenated, carrying the status code and the response headers. -/
def statusCodeMessage (code : Nat) (headers : String) : String :=
  "Код HTTP ответа при запросе к API - " ++ toString code
    ++ " Headers при запросе к API - \"" ++ headers ++ "\""

/-- Message of `JSONError` in `get_api_answer`. -/
def jsonErrorMessage (e : String) : String :=
  "Ошибка при преобразовании ответа из JSON к типам данных Python: " ++ e

/-- Outcome of the `requests.get` call in `get_api_answer`: either the request
itself raises (connection error, bad URL, any other transport failure), or an
HTTP response arrives with a status code, headers, and a body whose `.json()`
decoding either yields a `PyVal` or raises. -/
inductive HttpOutcome where
  | transportFailure (msg : String)
  | response (status : Nat) (headers : String) (body : Except String PyVal)

/-- Embedding of `get_api_answer` (homework.py:54-88).  On a transport failure
every `except` branch only logs and does not re-raise (the `URLRequired`
branch even reads `homeworks.url` itself), so control reaches
`homeworks.status_code` with the local `homeworks` never assigned and the
function raises `UnboundLocalError`.  Otherwise: a non-OK (≠ 200) status
raises `StatusCodeError` with the code and headers in its message; a body that
fails to decode raises `JSONError`; else the decoded payload is returned
unmodified. -/
def get_api_answer (outcome : HttpOutcome) : Except PyErr PyVal :=
  match outcome with
  | HttpOutcome.transportFailure _ => Except.error PyErr.unboundLocalError
  | HttpOutcome.response status headers body =>
    if status ≠ 200 then
      Except.error (PyErr.statusCodeError (statusCodeMessage status headers))
    else
      match body with
      | Except.error e => Except.error (PyErr.jsonError (jsonErrorMessage e))
      | Except.ok v => Except.ok v

/-- Embedding of `check_response` (homework.py:91-114): truthiness check, dict
check, `current_date` present and non-null, `homeworks` present and non-null,
`homeworks` a list; on success the homeworks list is returned. -/
def check_response (response : PyVal) : Except PyErr (List PyVal) :=
  if response.truthy = false then
    Except.error (PyErr.emptyDictInResponse emptyDictMsg)
  else
    match response with
    | PyVal.dict d =>
      if (dictGetD d "current_date").isNone then
        Except.error (PyErr.keyError missingCurrentDateMsg)
      else
        let homeworks := dictGetD d "homeworks"
        if homeworks.isNone then
          Except.error (PyErr.keyError missingHomeworksMsg)
        else
          match homeworks with
          | PyVal.list l => Except.ok l
          | _ => Except.error (PyErr.typeError homeworksNotListMsg)
    | _ => Except.error (PyErr.typeError notDictMsg)

/-- Exact output format of `parse_status` on success. -/
def statusChangedMessage (name verdict : String) : String :=
  "Изменился статус проверки работы \"" ++ name ++ "\". " ++ verdict

/-- Embedding of `parse_status` (homework.py:117-141): both `.get` calls and
the verdict lookup happen before the `None` checks (so a non-dict argument
raises `AttributeError` and an unhashable status raises `TypeError` first);
then missing name, missing status and unknown status each raise `KeyError`;
on success the fixed-format string is returned. -/
def parse_status (homework : PyVal) : Except PyErr String :=
  match homework with
  | PyVal.dict d =>
    let homework_name := dictGetD d "homework_name"
    let homework_status := dictGetD d "status"
    match verdictsGet homework_status with
    | Except.error e => Except.error e
    | Except.ok verdict =>
      if homework_name.isNone then
        Except.error (PyErr.keyError missingNameMsg)
      else if homework_status.isNone then
        Except.error (PyErr.keyError missingStatusMsg)
      else
        match verdict with
        | Option.none => Except.error (PyErr.keyError unknownStatusMsg)
        | Option.some v => Except.ok (statusChangedMessage (pyStr homework_name) v)
  | _ => Except.error (PyErr.attributeError
      ("\x27" ++ pyTypeName homework ++ "\x27 object has no attribute \x27get\x27"))

/-- Embedding of `send_message` (homework.py:41-52).  The delivery client
(`bot.send_message`) is passed in as a function from the message to an outcome;
the `try/except Exception` catches any delivery error and logs it, so the
result is `Except.ok` (a log line) for every client behaviour and every
message.  The success log keeps the source's double space. -/
def send_message (bot : String → Except String Unit) (message : String) :
    Except PyErr String :=
  match bot message with
  | Except.ok _ => Except.ok ("Успешная отправка сообщения  " ++ message)
  | Except.error e => Except.ok ("Сбой при отправке сообщения " ++ e)

/-- Observable result of one iteration of `main`'s `while True` body
(homework.py:158-174): the cursor value after the cycle, the messages handed to
`send_message` (which never raises, see `send_message`), the work item passed
to `parse_status` if any, whether the low-severity no-new-status debug line was
logged, and the exception reaching the `except` handler if any. -/
structure CycleResult where
  cursor : PyVal
  sent : List String
  translated : Option PyVal
  noNewStatus : Bool
  caught : Option PyErr

/-- Result of a cycle whose body raised `e`: the handler logs, builds the
generic failure message and sends it; `cursor` is whatever the variable holds
at that point. -/
def failureCycle (cursor : PyVal) (e : PyErr) : CycleResult :=
  { cursor := cursor,
    sent := ["Сбой в работе программы: " ++ pyErrStr e],
    translated := Option.none,
    noNewStatus := false,
    caught := Option.some e }

/-- Embedding of one iteration of `main`'s loop body (homework.py:158-174) from
a cursor value and the HTTP outcome of this cycle's request.  Faithful to the
source order: `current_timestamp = response.get('current_date')` runs right
after the fetch and BEFORE `check_response`, so a later validation or
translation failure is caught with the cursor already reassigned. -/
def cycle (current_timestamp : PyVal) (outcome : HttpOutcome) : CycleResult :=
  match get_api_answer outcome with
  | Except.error e => failureCycle current_timestamp e
  | Except.ok response =>
    match pyGet response "current_date" with
    | Except.error e => failureCycle current_timestamp e
    | Except.ok newCursor =>
      match check_response response with
      | Except.error e => failureCycle newCursor e
      | Except.ok homeworks =>
        match homeworks with
        | [] =>
          { cursor := newCursor, sent := [], translated := Option.none,
            noNewStatus := true, caught := Option.none }
        | h :: _ =>
          match parse_status h with
          | Except.error e => { failureCycle newCursor e with translated := Option.some h }
          | Except.ok message =>
            { cursor := newCursor, sent := [message],
              translated := Option.some h, noNewStatus := false,
              caught := Option.none }

/-- Cursor initialisation in `main` (homework.py:152):
`current_timestamp = int(time.time())`, the process-start time. -/
def initial_timestamp (startTime : Int) : PyVal := PyVal.int startTime

/-- Delivery client that always succeeds, for concrete evaluations. -/
def okBot : String → Except String Unit := fun _ => Except.ok ()

/-- Delivery client that always raises, for concrete evaluations. -/
def failBot : String → Except String Unit := fun _ => Except.error "boom"

/-! Helper lemmas shared by several claim theorems. -/

/-- Any falsy payload is rejected first, with `EmptyDictInResponseError`. -/
lemma check_response_falsy (v : PyVal) (h : v.truthy = false) :
    check_response v = Except.error (PyErr.emptyDictInResponse emptyDictMsg) := by
  simp [check_response, h]

/-- Evaluation lemma: a list value is not `None`. -/
lemma isNone_list_val (l : List PyVal) : (PyVal.list l).isNone = false := rfl

/-- Evaluation lemma: a string value is not `None`. -/
lemma isNone_str_val (s : String) : (PyVal.str s).isNone = false := rfl

/-- Unfolding of `check_response` on a truthy dict payload: the remaining
three checks. -/
lemma check_response_dict_eq (d : List (String × PyVal))
    (h1 : (PyVal.dict d).truthy = true) :
    check_response (PyVal.dict d) =
      (if (dictGetD d "current_date").isNone then
        Except.error (PyErr.keyError missingCurrentDateMsg)
      else if (dictGetD d "homeworks").isNone then
        Except.error (PyErr.keyError missingHomeworksMsg)
      else
        match dictGetD d "homeworks" with
        | PyVal.list l => Except.ok l
        | _ => Except.error (PyErr.typeError homeworksNotListMsg)) := by
  simp [check_response, h1]

/-- A non-dict payload is never accepted by `check_response`. -/
lemma check_response_not_dict_never_ok (v : PyVal) (hv : v.isDict = false)
    (l : List PyVal) : check_response v ≠ Except.ok l := by
  intro h
  unfold check_response at h
  split at h
  · simp at h
  · cases v <;> simp_all [PyVal.isDict]

/-- Claim C6: `check_response` checks its five rules in the stated order, each
failing with its own distinct error: falsy payload → `EmptyDictInResponseError`,
non-dict payload → `TypeError`, missing/null `current_date` → `KeyError`,
missing/null `homeworks` → `KeyError`, non-list `homeworks` → `TypeError`; and
every payload passing all five yields the homeworks list (possibly empty). -/
theorem check_response_rules_in_order :
    (∀ v : PyVal, v.truthy = false →
      check_response v = Except.error (PyErr.emptyDictInResponse emptyDictMsg)) ∧
    (∀ v : PyVal, v.truthy = true → v.isDict = false →
      check_response v = Except.error (PyErr.typeError notDictMsg)) ∧
    (∀ d : List (String × PyVal), (PyVal.dict d).truthy = true →
      (dictGetD d "current_date").isNone = true →
      check_response (PyVal.dict d) = Except.error (PyErr.keyError missingCurrentDateMsg)) ∧
    (∀ d : List (String × PyVal), (PyVal.dict d).truthy = true →
      (dictGetD d "current_date").isNone = false →
      (dictGetD d "homeworks").isNone = true →
      check_response (PyVal.dict d) = Except.error (PyErr.keyError missingHomeworksMsg)) ∧
    (∀ d : List (String × PyVal), (PyVal.dict d).truthy = true →
      (dictGetD d "current_date").isNone = false →
      (dictGetD d "homeworks").isNone = false →
      (∀ l : List PyVal, dictGetD d "homeworks" ≠ PyVal.list l) →
      check_response (PyVal.dict d) = Except.error (PyErr.typeError homeworksNotListMsg)) ∧
    (∀ (d : List (String × PyVal)) (l : List PyVal), (PyVal.dict d).truthy = true →
      (dictGetD d "current_date").isNone = false →
      dictGetD d "homeworks" = PyVal.list l →
      check_response (PyVal.dict d) = Except.ok l) := by
  refine ⟨check_response_falsy, ?_, ?_, ?_, ?_, ?_⟩
  · intro v h1 h2
    cases v <;> simp_all [check_response, PyVal.isDict]
  · intro d h1 h2
    simp [check_response, h1, h2]
  · intro d h1 h2 h3
    simp [check_response, h1, h2, h3]
  · intro d h1 h2 h3 h4
    cases hv : dictGetD d "homeworks" <;>
      simp_all [check_response, PyVal.isNone]
  · intro d l h1 h2 h3
    simp [check_response, h1, h2, h3, isNone_list_val]

/-- Witness for `check_response_rules_in_order`: the success rule at a
concrete well-formed payload. -/
theorem check_response_rules_in_order_witness :
    check_response (PyVal.dict
        [("current_date", PyVal.int 2000), ("homeworks", PyVal.list [])])
      = Except.ok [] :=
  check_response_rules_in_order.2.2.2.2.2
    [("current_date", PyVal.int 2000), ("homeworks", PyVal.list [])] []
    rfl rfl rfl

/-- Claim C10: every falsy non-dict payload (for example the empty list, the
empty string, or the integer 0) is rejected by `check_response` with
`EmptyDictInResponseError`, not with the not-a-dict `TypeError`, because the
truthiness check comes before the `isinstance(response, dict)` check. -/
theorem falsy_payload_empty_error :
    (∀ v : PyVal, v.truthy = false → v.isDict = false →
      check_response v = Except.error (PyErr.emptyDictInResponse emptyDictMsg)) ∧
    check_response (PyVal.list [])
      = Except.error (PyErr.emptyDictInResponse emptyDictMsg) ∧
    check_response (PyVal.str "")
      = Except.error (PyErr.emptyDictInResponse emptyDictMsg) ∧
    check_response (PyVal.int 0)
      = Except.error (PyErr.emptyDictInResponse emptyDictMsg) := by
  refine ⟨fun v h _ => check_response_falsy v h, ?_, ?_, ?_⟩ <;> rfl

/-- Witness for `falsy_payload_empty_error`: the general rule applied to the
empty list. -/
theorem falsy_payload_empty_error_witness :
    check_response (PyVal.list [])
      = Except.error (PyErr.emptyDictInResponse emptyDictMsg) :=
  falsy_payload_empty_error.1 (PyVal.list []) rfl rfl

/-- Claim C4, counterexample: the payload
`{"current_date": "oops", "homeworks": []}` has a non-integer `current_date`
yet `check_response` accepts it — the integer typing of `current_date` is
never checked. -/
theorem check_response_accepts_non_integer_current_date :
    check_response (PyVal.dict
        [("current_date", PyVal.str "oops"), ("homeworks", PyVal.list [])])
      = Except.ok [] ∧
    (dictGetD [("current_date", PyVal.str "oops"), ("homeworks", PyVal.list [])]
        "current_date").isInt = false :=
  ⟨rfl, rfl⟩

/-- Claim C4, amended: every payload accepted by `check_response` is a dict in
which `homeworks` is the returned list and `current_date` is present and
non-null; the integer typing of `current_date` is not checked. -/
theorem check_response_accepted_shape :
    (∀ (d : List (String × PyVal)) (l : List PyVal),
      check_response (PyVal.dict d) = Except.ok l →
      dictGetD d "homeworks" = PyVal.list l ∧
        (dictGetD d "current_date").isNone = false) ∧
    (∀ (v : PyVal) (l : List PyVal),
      check_response v = Except.ok l → v.isDict = true) := by
  constructor
  · intro d l h
    by_cases htr : (PyVal.dict d).truthy = false
    · rw [check_response_falsy _ htr] at h
      simp at h
    · have htr' : (PyVal.dict d).truthy = true := by simp_all
      rw [check_response_dict_eq d htr'] at h
      by_cases hcd : (dictGetD d "current_date").isNone = true
      · rw [if_pos hcd] at h
        simp at h
      · have hcd' : (dictGetD d "current_date").isNone = false := by simp_all
        rw [if_neg hcd] at h
        cases hhw : dictGetD d "homeworks" with
        | list m =>
          rw [hhw] at h
          simp [PyVal.isNone] at h
          subst h
          exact ⟨rfl, hcd'⟩
        | none => rw [hhw] at h; simp [PyVal.isNone] at h
        | bool b => rw [hhw] at h; simp [PyVal.isNone] at h
        | int n => rw [hhw] at h; simp [PyVal.isNone] at h
        | str s => rw [hhw] at h; simp [PyVal.isNone] at h
        | dict d2 => rw [hhw] at h; simp [PyVal.isNone] at h
  · intro v l h
    cases hv : v.isDict with
    | true => rfl
    | false => exact absurd h (check_response_not_dict_never_ok v hv l)

/-- Witness for `check_response_accepted_shape`: applied to a concrete accepted
payload. -/
theorem check_response_accepted_shape_witness :
    dictGetD [("current_date", PyVal.int 7), ("homeworks", PyVal.list [])]
        "homeworks" = PyVal.list [] ∧
    (dictGetD [("current_date", PyVal.int 7), ("homeworks", PyVal.list [])]
        "current_date").isNone = false :=
  check_response_accepted_shape.1
    [("current_date", PyVal.int 7), ("homeworks", PyVal.list [])] [] rfl

/-- Claim C5: for every work item with `homework_name` present and `status` a
key of `HOMEWORK_VERDICTS`, `parse_status` returns exactly the fixed-format
string with the name and the mapped verdict substituted; in particular the item
with name `hw1` and status `approved` yields the exact literal. -/
theorem parse_status_format_ok :
    (∀ (d : List (String × PyVal)) (nv : PyVal) (status verdict : String),
      dictGetD d "homework_name" = nv → nv.isNone = false →
      dictGetD d "status" = PyVal.str status →
      HOMEWORK_VERDICTS.lookup status = Option.some verdict →
      parse_status (PyVal.dict d)
        = Except.ok (statusChangedMessage (pyStr nv) verdict)) ∧
    parse_status (PyVal.dict
        [("homework_name", PyVal.str "hw1"), ("status", PyVal.str "approved")])
      = Except.ok
        "Изменился статус проверки работы \"hw1\". Работа проверена: ревьюеру всё понравилось. Ура!" := by
  constructor
  · intro d nv status verdict h1 h2 h3 h4
    simp [parse_status, h1, h2, h3, h4, verdictsGet, isNone_str_val]
  · rfl

/-- Witness for `parse_status_format_ok`: its general part applied to a
concrete item with the `reviewing` status. -/
theorem parse_status_format_ok_witness :
    parse_status (PyVal.dict
        [("homework_name", PyVal.str "hw2"), ("status", PyVal.str "reviewing")])
      = Except.ok (statusChangedMessage (pyStr (PyVal.str "hw2"))
          "Работа взята на проверку ревьюером.") :=
  parse_status_format_ok.1
    [("homework_name", PyVal.str "hw2"), ("status", PyVal.str "reviewing")]
    (PyVal.str "hw2") "reviewing" "Работа взята на проверку ревьюером."
    rfl rfl rfl rfl

/-- Claim C7: every HTTP response with a non-200 status makes `get_api_answer`
raise `StatusCodeError` carrying the status code and the headers in its
message; in particular a 500 response yields that error with code 500, and the
cycle leaves the cursor unchanged. -/
theorem status_code_error_and_cursor_unchanged :
    (∀ (status : Nat) (headers : String) (body : Except String PyVal),
      status ≠ 200 →
      get_api_answer (HttpOutcome.response status headers body)
        = Except.error (PyErr.statusCodeError (statusCodeMessage status headers))) ∧
    (∀ (cur : PyVal) (headers : String) (body : Except String PyVal),
      get_api_answer (HttpOutcome.response 500 headers body)
        = Except.error (PyErr.statusCodeError (statusCodeMessage 500 headers)) ∧
      (cycle cur (HttpOutcome.response 500 headers body)).cursor = cur) := by
  constructor
  · intro status headers body h
    simp [get_api_answer, h]
  · intro cur headers body
    constructor
    · simp [get_api_answer]
    · simp [cycle, get_api_answer, failureCycle]

/-- Witness for `status_code_error_and_cursor_unchanged`: its general part at
status 500 with concrete headers and body. -/
theorem status_code_error_and_cursor_unchanged_witness :
    get_api_answer (HttpOutcome.response 500 "hdrs" (Except.ok PyVal.none))
      = Except.error (PyErr.statusCodeError (statusCodeMessage 500 "hdrs")) :=
  status_code_error_and_cursor_unchanged.1 500 "hdrs" (Except.ok PyVal.none)
    (by decide)

/-- Claim C9: `send_message` never fails observably: for every delivery-client
behaviour and every message it returns normally, and when the client raises it
catches the error and logs it. -/
theorem send_message_never_raises :
    ∀ (bot : String → Except String Unit) (message : String),
      (send_message bot message).isOk = true ∧
      (∀ e : String, bot message = Except.error e →
        send_message bot message
          = Except.ok ("Сбой при отправке сообщения " ++ e)) := by
  intro bot message
  cases hb : bot message with
  | ok u =>
    refine ⟨by simp [send_message, hb, Except.isOk, Except.toBool], ?_⟩
    intro e he
    cases he
  | error e0 =>
    refine ⟨by simp [send_message, hb, Except.isOk, Except.toBool], ?_⟩
    intro e he
    cases he
    simp [send_message, hb]

/-- Witness for `send_message_never_raises`: a client that always raises still
lets `send_message` return normally with the error logged. -/
theorem send_message_never_raises_witness :
    (send_message failBot "hi").isOk = true ∧
    send_message failBot "hi"
      = Except.ok ("Сбой при отправке сообщения " ++ "boom") :=
  ⟨(send_message_never_raises failBot "hi").1,
   (send_message_never_raises failBot "hi").2 "boom" rfl⟩

/-- Claim C8: in a cycle whose fetch and validation succeed, a non-empty
work-item list leads to exactly the first item being translated and its message
being the only one sent, with no no-new-status log; an empty list leads to no
notification, no translation, and the low-severity no-new-status log line. -/
theorem first_item_only_policy :
    (∀ (cur : PyVal) (headers : String) (d : List (String × PyVal))
       (h : PyVal) (t : List PyVal) (msg : String),
      check_response (PyVal.dict d) = Except.ok (h :: t) →
      parse_status h = Except.ok msg →
      (cycle cur (HttpOutcome.response 200 headers
          (Except.ok (PyVal.dict d)))).translated = Option.some h ∧
      (cycle cur (HttpOutcome.response 200 headers
          (Except.ok (PyVal.dict d)))).sent = [msg] ∧
      (cycle cur (HttpOutcome.response 200 headers
          (Except.ok (PyVal.dict d)))).noNewStatus = false) ∧
    (∀ (cur : PyVal) (headers : String) (d : List (String × PyVal)),
      check_response (PyVal.dict d) = Except.ok [] →
      (cycle cur (HttpOutcome.response 200 headers
          (Except.ok (PyVal.dict d)))).sent = [] ∧
      (cycle cur (HttpOutcome.response 200 headers
          (Except.ok (PyVal.dict d)))).translated = Option.none ∧
      (cycle cur (HttpOutcome.response 200 headers
          (Except.ok (PyVal.dict d)))).noNewStatus = true) := by
  constructor
  · intro cur headers d h t msg h1 h2
    simp [cycle, get_api_answer, pyGet, h1, h2]
  · intro cur headers d h1
    simp [cycle, get_api_answer, pyGet, h1]

/-- Witness for `first_item_only_policy`: a concrete two-item payload where
only the first item is translated and sent. -/
theorem first_item_only_policy_witness :
    (cycle (PyVal.int 1) (HttpOutcome.response 200 "h" (Except.ok (PyVal.dict
        [("current_date", PyVal.int 9),
         ("homeworks", PyVal.list
            [PyVal.dict [("homework_name", PyVal.str "hw1"),
                         ("status", PyVal.str "approved")],
             PyVal.dict [("homework_name", PyVal.str "hw9"),
                         ("status", PyVal.str "rejected")]])])))).translated
      = Option.some (PyVal.dict [("homework_name", PyVal.str "hw1"),
                                 ("status", PyVal.str "approved")]) ∧
    (cycle (PyVal.int 1) (HttpOutcome.response 200 "h" (Except.ok (PyVal.dict
        [("current_date", PyVal.int 9),
         ("homeworks", PyVal.list
            [PyVal.dict [("homework_name", PyVal.str "hw1"),
                         ("status", PyVal.str "approved")],
             PyVal.dict [("homework_name", PyVal.str "hw9"),
                         ("status", PyVal.str "rejected")]])])))).sent
      = [statusChangedMessage "hw1"
          "Работа проверена: ревьюеру всё понравилось. Ура!"] ∧
    (cycle (PyVal.int 1) (HttpOutcome.response 200 "h" (Except.ok (PyVal.dict
        [("current_date", PyVal.int 9),
         ("homeworks", PyVal.list
            [PyVal.dict [("homework_name", PyVal.str "hw1"),
                         ("status", PyVal.str "approved")],
             PyVal.dict [("homework_name", PyVal.str "hw9"),
                         ("status", PyVal.str "rejected")]])])))).noNewStatus
      = false :=
  first_item_only_policy.1 (PyVal.int 1) "h"
    [("current_date", PyVal.int 9),
     ("homeworks", PyVal.list
        [PyVal.dict [("homework_name", PyVal.str "hw1"),
                     ("status", PyVal.str "approved")],
         PyVal.dict [("homework_name", PyVal.str "hw9"),
                     ("status", PyVal.str "rejected")]])]
    (PyVal.dict [("homework_name", PyVal.str "hw1"),
                 ("status", PyVal.str "approved")])
    [PyVal.dict [("homework_name", PyVal.str "hw9"),
                 ("status", PyVal.str "rejected")]]
    (statusChangedMessage "hw1" "Работа проверена: ревьюеру всё понравилось. Ура!")
    rfl rfl

/-- Claim C1 (evaluation at the failing inputs): a payload missing
`current_date` and a payload missing `homeworks` each make `check_response`
raise the corresponding `KeyError`; but because `main` reassigns
`current_timestamp = response.get('current_date')` before calling
`check_response`, the cycle's cursor is NOT left unchanged: from cursor 1000 it
becomes `None` for the first payload and 42 for the second. -/
theorem cursor_clobbered_on_missing_field :
    check_response (PyVal.dict [("homeworks", PyVal.list [])])
      = Except.error (PyErr.keyError missingCurrentDateMsg) ∧
    (cycle (PyVal.int 1000) (HttpOutcome.response 200 "h"
        (Except.ok (PyVal.dict [("homeworks", PyVal.list [])])))).cursor
      = PyVal.none ∧
    check_response (PyVal.dict [("current_date", PyVal.int 42)])
      = Except.error (PyErr.keyError missingHomeworksMsg) ∧
    (cycle (PyVal.int 1000) (HttpOutcome.response 200 "h"
        (Except.ok (PyVal.dict [("current_date", PyVal.int 42)])))).cursor
      = PyVal.int 42 :=
  ⟨rfl, rfl, rfl, rfl⟩

/-- Claim C3 (evaluation at the failing input): on any transport failure
`get_api_answer` does not surface any error of its own; the `except` branches
swallow the exception after logging, and the function then crashes with
`UnboundLocalError` reading the unassigned `homeworks` local.  The loop's
handler catches it and leaves the cursor unchanged. -/
theorem transport_failure_unbound_local :
    ∀ (m : String) (cur : PyVal),
      get_api_answer (HttpOutcome.transportFailure m)
        = Except.error PyErr.unboundLocalError ∧
      (cycle cur (HttpOutcome.transportFailure m)).cursor = cur ∧
      (cycle cur (HttpOutcome.transportFailure m)).caught
        = Option.some PyErr.unboundLocalError :=
  fun _ _ => ⟨rfl, rfl, rfl⟩

/-- Claim C2, counterexample: starting from cursor 1000, a fetched response
with `current_date` 5 makes the cursor decrease to 5, and a fetched response
without `current_date` makes the cursor become `None`, which is not an
integer — the cursor neither is always an integer nor never decreases. -/
theorem cursor_regression_and_none_example :
    (cycle (PyVal.int 1000) (HttpOutcome.response 200 "h" (Except.ok
        (PyVal.dict [("current_date", PyVal.int 5),
                     ("homeworks", PyVal.list [])])))).cursor = PyVal.int 5 ∧
    (5 : Int) < 1000 ∧
    (cycle (PyVal.int 1000) (HttpOutcome.response 200 "h" (Except.ok
        (PyVal.dict [("current_date", PyVal.str "later"),
                     ("homeworks", PyVal.list [])])))).cursor
      = PyVal.str "later" ∧
    (PyVal.str "later").isInt = false :=
  ⟨rfl, by decide, rfl, rfl⟩

/-- Claim C2, amended: the cursor is only ever reassigned from the
`current_date` field of a successfully fetched and decoded dict body (on any
other outcome the cycle leaves it unchanged); nothing constrains the new value
to be an integer or to be at least the old cursor. -/
theorem cursor_reassigned_only_from_current_date :
    ∀ (cur : PyVal) (outcome : HttpOutcome),
      (cycle cur outcome).cursor = cur ∨
      ∃ (status : Nat) (headers : String) (d : List (String × PyVal)),
        outcome = HttpOutcome.response status headers
          (Except.ok (PyVal.dict d)) ∧
        (cycle cur outcome).cursor = dictGetD d "current_date" := by
  intro cur outcome
  cases outcome with
  | transportFailure m => exact Or.inl rfl
  | response status headers body =>
    by_cases hs : status = 200
    · subst hs
      cases body with
      | error e => exact Or.inl (by simp [cycle, get_api_answer, failureCycle])
      | ok v =>
        cases v with
        | dict d =>
          refine Or.inr ⟨200, headers, d, rfl, ?_⟩
          cases hcr : check_response (PyVal.dict d) with
          | error e => simp [cycle, get_api_answer, pyGet, hcr, failureCycle]
          | ok hw =>
            cases hw with
            | nil => simp [cycle, get_api_answer, pyGet, hcr]
            | cons h t =>
              cases hp : parse_status h <;>
                simp [cycle, get_api_answer, pyGet, hcr, hp, failureCycle]
        | none => exact Or.inl (by simp [cycle, get_api_answer, pyGet, failureCycle])
        | bool b => exact Or.inl (by simp [cycle, get_api_answer, pyGet, failureCycle])
        | int n => exact Or.inl (by simp [cycle, get_api_answer, pyGet, failureCycle])
        | str s => exact Or.inl (by simp [cycle, get_api_answer, pyGet, failureCycle])
        | list l => exact Or.inl (by simp [cycle, get_api_answer, pyGet, failureCycle])
    · exact Or.inl (by simp [cycle, get_api_answer, hs, failureCycle])
